import Mathlib

/-!
Verification of the datadog-agent-binary build/packaging pipeline.

The repository contains two revisions of its core modules; both are embedded
here where a claim refers to them:
* the struct revision (`src/src/platform.ts`, `src/src/builders/*.ts`,
  `src/src/binary-manager.ts`), where a platform is a record
  `{os : "linux"|"windows"|"darwin", arch : "x64"|"arm64"}`;
* the class revision (`Platform` class with `Linux`/`MacOS`/`Windows`/`Unknown`
  subclasses, `unnamed/part_001` BinaryManager, `unnamed/part_003` BaseBuilder),
  where a platform carries `arch : "x86_64"|"arm64"`.

Throwing TypeScript code is embedded as `Except String`-valued functions;
filesystem and process effects are passed in explicitly as oracle values
recording the outcome each external step would have.
-/

/-- Results of `os.platform()` / `os.arch()` results that are accepted by `detectPlatform`
map into this record (struct revision of `src/src/platform.ts`). -/
inductive OSS
  | linux
  | windows
  | darwin
deriving DecidableEq, Repr

inductive ArchS
  | x64
  | arm64
deriving DecidableEq, Repr

/-- The struct-revision `Platform` interface of `src/types.ts`:
`{ os, arch }`. -/
structure PlatformS where
  os : OSS
  arch : ArchS
deriving DecidableEq, Repr

/-- Model of `detectPlatform()` from `src/src/platform.ts` (struct revision): switches on
`os.platform()` and `os.arch()`, throwing `Unsupported platform: ...` or
`Unsupported architecture: ...` outside the supported sets. -/
def detectPlatform (plat arch : String) : Except String PlatformS :=
  if plat = "linux" then
    detectArch OSS.linux arch
  else if plat = "win32" then
    detectArch OSS.windows arch
  else if plat = "darwin" then
    detectArch OSS.darwin arch
  else
    .error ("Unsupported platform: " ++ plat)
where
  detectArch (osType : OSS) (arch : String) : Except String PlatformS :=
    if arch = "x64" then
      .ok { os := osType, arch := ArchS.x64 }
    else if arch = "arm64" then
      .ok { os := osType, arch := ArchS.arm64 }
    else
      .error ("Unsupported architecture: " ++ arch)

/-- Model of `getPlatformString` from `src/src/platform.ts`: `${platform.os}-${platform.arch}`. -/
def OSS.toName : OSS → String
  | .linux => "linux"
  | .windows => "windows"
  | .darwin => "darwin"

def ArchS.toName : ArchS → String
  | .x64 => "x64"
  | .arm64 => "arm64"

def getPlatformString (p : PlatformS) : String :=
  p.os.toName ++ "-" ++ p.arch.toName

/-- The class revision's `Architecture` type (`src/types.ts`):
`"x86_64" | "arm64"`. -/
inductive Architecture
  | x86_64
  | arm64
deriving DecidableEq, Repr

def Architecture.toName : Architecture → String
  | .x86_64 => "x86_64"
  | .arm64 => "arm64"

/-- The class revision's `Platform` hierarchy (`src/platform.ts`):
`Linux`, `MacOS`, `Windows` concrete subclasses, plus the `Unknown`
subclass returned by `current()` for an unrecognized `process.platform`. -/
inductive PlatformC
  | linux (arch : Architecture)
  | macos (arch : Architecture)
  | windows (arch : Architecture)
  | unknown (arch : Architecture)
deriving DecidableEq, Repr

namespace PlatformC

/-- Model of `Platform.processArchToArchitecture()`: maps `process.arch`, throwing
`Unsupported architecture: ...` outside `x64`/`arm64`. -/
def processArchToArchitecture (arch : String) : Except String Architecture :=
  if arch = "x64" then
    .ok Architecture.x86_64
  else if arch = "arm64" then
    .ok Architecture.arm64
  else
    .error ("Unsupported architecture: " ++ arch)

/-- Model of `Platform.current()`: dispatches on `process.platform`; any other OS value
yields an `Unknown` platform object (it does not throw at this point). -/
def current (plat arch : String) : Except String PlatformC :=
  match processArchToArchitecture arch with
  | .error e => .error e
  | .ok a =>
    if plat = "linux" then
      .ok (.linux a)
    else if plat = "darwin" then
      .ok (.macos a)
    else if plat = "win32" then
      .ok (.windows a)
    else
      .ok (.unknown a)

def getArch : PlatformC → Architecture
  | .linux a | .macos a | .windows a | .unknown a => a

/-- Model of `getOS()`: per-subclass OS tag; the `Unknown` subclass throws `Unknown OS`. -/
def getOS : PlatformC → Except String String
  | .linux _ => .ok "linux"
  | .macos _ => .ok "macos"
  | .windows _ => .ok "windows"
  | .unknown _ => .error "Unknown OS"

/-- Model of `getBinaryName()`: `datadog-agent` on the Unix subclasses,
`datadog-agent.exe` on Windows; `Unknown` throws. -/
def getBinaryName : PlatformC → Except String String
  | .linux _ => .ok "datadog-agent"
  | .macos _ => .ok "datadog-agent"
  | .windows _ => .ok "datadog-agent.exe"
  | .unknown _ => .error "Unknown binary name"

/-- Model of `getName()`: `${this.getOS()}-${this.getArch()}` (throws when `getOS` does). -/
def getName (p : PlatformC) : Except String String :=
  match p.getOS with
  | .error e => .error e
  | .ok o => .ok (o ++ "-" ++ p.getArch.toName)

/-- Model of `getGoArch()`: `x86_64 ↦ amd64`, otherwise the arch name. -/
def getGoArch (p : PlatformC) : String :=
  match p.getArch with
  | .x86_64 => "amd64"
  | .arm64 => "arm64"

end PlatformC

/-- Constant `SUPPORTED_PLATFORMS` from the class revision of `src/platform.ts`. -/
def SUPPORTED_PLATFORMS : List PlatformC :=
  [.linux .x86_64, .linux .arm64, .macos .x86_64, .macos .arm64, .windows .x86_64]

/-- Model of `path.join` on already-normalized segments: joined with `/`. -/
def pathJoin : List String → String
  | [] => ""
  | [x] => x
  | x :: xs => x ++ "/" ++ pathJoin xs

/-- The location the `build` CLI command directs the builder's output to
(`src/cli.ts`, class revision): the output directory
`path.join(options.output, currentPlatform.getName(), "bin")` — `--output`
defaults to `./build` — joined with the platform's binary file name. -/
def cliBinaryPath (output : String) (p : PlatformC) : Except String String :=
  match p.getName with
  | .error e => .error e
  | .ok n =>
    match p.getBinaryName with
    | .error e => .error e
    | .ok b => .ok (pathJoin [output, n, "bin", b])

/-- The path `scripts/create-platform-packages.js` reads the binary from,
relative to the package root:
`path.join(__dirname, "..", "build", platform.getName(), "bin", binaryName)`. -/
def packagingBinaryPath (p : PlatformC) : Except String String :=
  match p.getName with
  | .error e => .error e
  | .ok n =>
    match p.getBinaryName with
    | .error e => .error e
    | .ok b => .ok (pathJoin ["build", n, "bin", b])

namespace BinaryManager

/-- Model of `BinaryManager.getBinaryPath` (`unnamed/part_001`), relative to the package
root: `path.join(buildDir, `${version}-${platform.getName()}`, fileName)` with
`buildDir = path.join(__dirname, "..", "build")`. -/
def getBinaryPath (p : PlatformC) (version : String) : Except String String :=
  match p.getBinaryName with
  | .error e => .error e
  | .ok fileName =>
    match p.getName with
    | .error e => .error e
    | .ok n => .ok (pathJoin ["build", version ++ "-" ++ n, fileName])

/-- Model of `BinaryManager.ensureBinary` (`unnamed/part_001`): resolves the
version as `version || (await this.getLatestVersion())` — JS `||`, so the
feed is queried when `version` is `undefined` or any falsy string, that is
the empty string — computes the expected path, returns it when a file is
present there, and otherwise throws `Binary not found for <platform name>`.
The feed query outcome and the filesystem probe are passed as oracles. -/
def ensureBinary (p : PlatformC) (version? : Option String)
    (feed : Except String String) (fileIsPresent : String → Bool) :
    Except String String :=
  match (match version? with
         | some v => if v = "" then feed else Except.ok v
         | none => feed) with
  | .error e => .error e
  | .ok targetVersion =>
    match getBinaryPath p targetVersion with
    | .error e => .error e
    | .ok binaryPath =>
      if fileIsPresent binaryPath then
        .ok binaryPath
      else
        match p.getName with
        | .error e => .error e
        | .ok n => .error ("Binary not found for " ++ n)

end BinaryManager

/-- The artifact layout the spec states as the sole builder/packaging contract.
Modelled from the spec: `build/<os>-<arch>/bin/<binary-name>`. -/
def specLayoutPath (p : PlatformC) : Except String String :=
  match p.getName with
  | .error e => .error e
  | .ok n =>
    match p.getBinaryName with
    | .error e => .error e
    | .ok b => .ok ("build/" ++ n ++ "/bin/" ++ b)

/-- Model of the `BuildResult` interface of `src/types.ts`:
`{success, platform, outputPath?, error?, duration}`. -/
structure BuildResult where
  success : Bool
  platform : PlatformS
  outputPath : Option String
  error : Option String
  duration : Nat
deriving DecidableEq, Repr

/-- Relevant parts of `BuildConfig` (`src/types.ts`, struct revision). -/
structure BuildConfigS where
  platform : PlatformS
  version : Option String
  outputDir : String
  sourceDir : String
deriving DecidableEq, Repr

/-- Oracle record for one `build()` invocation: `process.platform` on the host,
the result of the `isDockerAvailable()` probe, the outcome each effectful
sub-step would have if reached (`.error msg` models a thrown exception whose
`message` is `msg`), and the two `Date.now()` readings. -/
structure BuilderEnv where
  hostPlatform : String
  dockerAvailable : Bool
  ensureOutputDir : Except String Unit
  dockerImageBuild : Except String Unit
  writeScript : Except String Unit
  dockerRun : Except String Unit
  pipInstall : Except String Unit
  ddaInstallTools : Except String Unit
  ddaAgentBuild : Except String Unit
  goModDownload : Except String Unit
  buildAgent : Except String Unit
  buildProcessAgent : Except String Unit
  buildTraceAgent : Except String Unit
  buildSystemProbe : Except String Unit
  xcodeSelect : Except String Unit
  copyBinaries : Except String Unit
  startTime : Nat
  endTime : Nat

def BuilderEnv.duration (env : BuilderEnv) : Nat :=
  env.endTime - env.startTime

/-- Failed `BuildResult` as produced by every `catch` block of the builders:
`{success: false, platform, error: error.message, duration}`. -/
def mkFailed (cfg : BuildConfigS) (env : BuilderEnv) (e : String) : BuildResult :=
  { success := false, platform := cfg.platform, outputPath := none,
    error := some e, duration := env.duration }

/-- Model of `getOutputBinaryName()` from `src/src/builders/base.ts` (struct
revision): `datadog-agent.exe` when the target OS is windows, else
`datadog-agent`. -/
def base_getOutputBinaryName (p : PlatformS) : String :=
  if p.os = OSS.windows then "datadog-agent.exe" else "datadog-agent"

/-- Model of `getOutputBinaryName()` from `unnamed/part_003` (class-revision
`BaseBuilder`): returns `datadog-agent` for every target platform, the
config's platform included. -/
def part003_getOutputBinaryName (_p : PlatformC) : String :=
  "datadog-agent"

/-- Model of `getAbsoluteOutputPath(fileName)` (`src/src/builders/base.ts`):
`path.join(outputDir, fileName)`, with a relative `outputDir` resolved
against `process.cwd()` (kept abstract here as the given root). -/
def getAbsoluteOutputPath (cfg : BuildConfigS) (fileName : String) : String :=
  pathJoin [cfg.outputDir, fileName]

/-- Outcome of one `build()` call: the returned `BuildResult` plus whether the
containerized (`buildWithDocker`) path was taken. -/
structure BuildOutcome where
  result : BuildResult
  dockerAttempted : Bool
deriving DecidableEq, Repr

/-- Model of `BaseBuilder.buildWithDocker` (`src/src/builders/base.ts`
lines 189-245): builds the Docker image, writes the generated build script
into the source directory, runs the container; any step's exception is caught
and converted into a failed `BuildResult` carrying the error message. -/
def buildWithDocker (cfg : BuildConfigS) (env : BuilderEnv) : BuildResult :=
  match env.dockerImageBuild with
  | .error e => mkFailed cfg env e
  | .ok _ =>
    match env.writeScript with
    | .error e => mkFailed cfg env e
    | .ok _ =>
      match env.dockerRun with
      | .error e => mkFailed cfg env e
      | .ok _ =>
        { success := true, platform := cfg.platform,
          outputPath := some (getAbsoluteOutputPath cfg (base_getOutputBinaryName cfg.platform)),
          error := none, duration := env.duration }

/-- Model of `buildCommon()` (`unnamed/part_003`): `pip install dda`, then
`dda inv install-tools`, then `dda inv agent.build --build-exclude=systemd`;
the first failing command's exception propagates. -/
def buildCommon (env : BuilderEnv) : Except String Unit :=
  match env.pipInstall with
  | .error e => .error e
  | .ok _ =>
    match env.ddaInstallTools with
    | .error e => .error e
    | .ok _ => env.ddaAgentBuild

namespace LinuxBuilder

/-- Native branch of `LinuxBuilder.build`: `buildCommon` then the artifact
copy; the first thrown error is caught by `build`'s `catch` into a failed
result. -/
def nativeTail (cfg : BuildConfigS) (env : BuilderEnv) : BuildResult :=
  match buildCommon env with
  | .error e => mkFailed cfg env e
  | .ok _ =>
    match env.copyBinaries with
    | .error e => mkFailed cfg env e
    | .ok _ =>
      { success := true, platform := cfg.platform,
        outputPath := some (getAbsoluteOutputPath cfg (base_getOutputBinaryName cfg.platform)),
        error := none, duration := env.duration }

/-- Model of `LinuxBuilder.build` (`src/src/builders/linux.ts` lines 7-52):
ensure the output directory; when `process.platform !== 'linux'` and Docker is
available, delegate to `buildWithDocker`; otherwise run `buildCommon` and copy
binaries. Every thrown error is caught and turned into a failed `BuildResult`;
the function always returns a `BuildResult`. -/
def build (cfg : BuildConfigS) (env : BuilderEnv) : BuildOutcome :=
  match env.ensureOutputDir with
  | .error e => ⟨mkFailed cfg env e, false⟩
  | .ok _ =>
    if env.hostPlatform ≠ "linux" ∧ env.dockerAvailable then
      ⟨buildWithDocker cfg env, true⟩
    else
      ⟨nativeTail cfg env, false⟩

end LinuxBuilder

namespace WindowsBuilder

/-- Native branch of `WindowsBuilder.build`: `go mod download`, the three
component builds, then the artifact copy; the first thrown error is caught by
`build`'s `catch` into a failed result. -/
def nativeTail (cfg : BuildConfigS) (env : BuilderEnv) : BuildResult :=
  match env.goModDownload with
  | .error e => mkFailed cfg env e
  | .ok _ =>
    match env.buildAgent with
    | .error e => mkFailed cfg env e
    | .ok _ =>
      match env.buildProcessAgent with
      | .error e => mkFailed cfg env e
      | .ok _ =>
        match env.buildTraceAgent with
        | .error e => mkFailed cfg env e
        | .ok _ =>
          match env.copyBinaries with
          | .error e => mkFailed cfg env e
          | .ok _ =>
            { success := true, platform := cfg.platform,
              outputPath := some (getAbsoluteOutputPath cfg (base_getOutputBinaryName cfg.platform)),
              error := none, duration := env.duration }

/-- Model of `WindowsBuilder.build` (`src/src/builders/windows.ts`
lines 7-60): ensure the output directory; when `process.platform !== 'win32'`
and Docker is available, delegate to `buildWithDocker`; otherwise run the
native command sequence. All errors are caught into a failed `BuildResult`. -/
def build (cfg : BuildConfigS) (env : BuilderEnv) : BuildOutcome :=
  match env.ensureOutputDir with
  | .error e => ⟨mkFailed cfg env e, false⟩
  | .ok _ =>
    if env.hostPlatform ≠ "win32" ∧ env.dockerAvailable then
      ⟨buildWithDocker cfg env, true⟩
    else
      ⟨nativeTail cfg env, false⟩

end WindowsBuilder

namespace DarwinBuilder

/-- Body of `DarwinBuilder.build` after the output directory exists: the Xcode
command line tools check (whose failure is rethrown with a remediation hint),
`go mod download`, the four component builds, and the artifact copy. -/
def nativeTail (cfg : BuildConfigS) (env : BuilderEnv) : BuildResult :=
  match env.xcodeSelect with
  | .error _ =>
    mkFailed cfg env "Xcode command line tools not found. Run: xcode-select --install"
  | .ok _ =>
    match env.goModDownload with
    | .error e => mkFailed cfg env e
    | .ok _ =>
      match env.buildAgent with
      | .error e => mkFailed cfg env e
      | .ok _ =>
        match env.buildProcessAgent with
        | .error e => mkFailed cfg env e
        | .ok _ =>
          match env.buildTraceAgent with
          | .error e => mkFailed cfg env e
          | .ok _ =>
            match env.buildSystemProbe with
            | .error e => mkFailed cfg env e
            | .ok _ =>
              match env.copyBinaries with
              | .error e => mkFailed cfg env e
              | .ok _ =>
                { success := true, platform := cfg.platform,
                  outputPath := some (getAbsoluteOutputPath cfg (base_getOutputBinaryName cfg.platform)),
                  error := none, duration := env.duration }

/-- Model of `DarwinBuilder.build` (`src/src/builders/darwin.ts` lines 7-55):
ensure the output directory, then the native sequence; no containerized path
exists for this builder (`createDockerBuildScript` only throws). All errors
are caught into a failed `BuildResult`. -/
def build (cfg : BuildConfigS) (env : BuilderEnv) : BuildOutcome :=
  match env.ensureOutputDir with
  | .error e => ⟨mkFailed cfg env e, false⟩
  | .ok _ => ⟨nativeTail cfg env, false⟩

end DarwinBuilder

/-- Content of the target directory in the source-acquisition model:
either arbitrary stale files left by a previous run, a fresh shallow
tag-pinned git clone, or a tree extracted from the versioned source archive
(with `strip` components recorded, and whether the synthesized
`git init` + `git tag` metadata succeeded). -/
inductive DirContent
  | stale (files : List String)
  | gitClone (version : String)
  | extracted (version : String) (strip : Nat) (gitMeta : Bool)
deriving DecidableEq, Repr

/-- Oracle record for one `downloadSource` call: outcome of the
`git clone --depth 1 --branch <version>` attempt, whether the archive fetch
response was ok (and its status text otherwise), and whether the synthesized
`git init`/`git tag` commands succeeded (their failure is swallowed). -/
structure DownloadEnv where
  cloneResult : Except String Unit
  fetchOk : Bool
  fetchStatusText : String
  gitMetaOk : Bool

/-- Model of `DatadogAgentDownloader.downloadSource`
(`src/src/builders/darwin.ts` tail / `src/downloader.ts`, lines 191-267):
remove any existing target directory entirely, attempt a shallow tag-pinned
clone, and on clone failure fall back to downloading the versioned archive,
extracting it with `strip: 1` and synthesizing `git init` + `git tag`.
Returns the call's result (resolved path or thrown error) together with the
final content of the target directory. -/
def downloadSource (prior : Option DirContent) (version : String)
    (extractTo : String) (env : DownloadEnv) :
    Except String String × Option DirContent :=
  -- await fs.mkdir(path.dirname(extractTo), { recursive: true })
  let _dirStateBeforeRemoval := prior
  -- await fs.rm(extractPath, { recursive: true, force: true })
  let dirState : Option DirContent := none
  match dirState, env.cloneResult with
  | _, .ok _ =>
    -- git clone --depth 1 --branch <version> <repo> <extractTo>
    (.ok extractTo, some (.gitClone version))
  | _, .error _ =>
    -- fallback: fetch(`.../archive/refs/tags/<version>.tar.gz`)
    if env.fetchOk then
      -- tar.extract { file, cwd: extractPath, strip: 1 }; git init; git tag
      (.ok extractTo, some (.extracted version 1 env.gitMetaOk))
    else
      (.error ("Failed to download source: " ++ env.fetchStatusText), dirState)

/-- Model of `getLatestVersion()` (`unnamed/part_001` /
`src/downloader.ts`): a single release-feed query; a non-ok response throws
`Failed to fetch latest version: <statusText>`, otherwise the `tag_name`
field is returned. -/
def getLatestVersion (responseOk : Bool) (statusText tagName : String) :
    Except String String :=
  if responseOk then .ok tagName
  else .error ("Failed to fetch latest version: " ++ statusText)

/-- Fixed per-OS tool requirement lists of `checkBuildDependencies`
(`src/downloader.ts` lines 269-298); an OS outside the record yields `[]`. -/
def requirements (os : String) : List String :=
  if os = "linux" then ["go", "make", "gcc", "git"]
  else if os = "darwin" then ["go", "make", "gcc", "git", "xcode-select"]
  else if os = "windows" then ["go", "make", "gcc", "git"]
  else []

def stepOk : Except String Unit → Bool
  | .ok _ => true
  | .error _ => false

/-- Loop body of `checkBuildDependencies`: `execSync('which <tool>')` inside
`try`, pushing the tool onto `missing` when the probe throws. -/
def collectMissing (tools : List String) (probe : String → Except String Unit) :
    List String :=
  match tools with
  | [] => []
  | t :: ts =>
    match probe t with
    | .ok _ => collectMissing ts probe
    | .error _ => t :: collectMissing ts probe

/-- Model of `checkBuildDependencies(platform)` (`src/downloader.ts`
lines 269-298): probes each required tool for presence; missing tools are only
collected and logged as warnings. The function's only exit is a normal return
carrying the missing list (surfaced here for the statement); its body catches
every probe failure, so the `Except` result is always `.ok`. -/
def checkBuildDependencies (os : String) (probe : String → Except String Unit) :
    Except String (List String) :=
  .ok (collectMissing (requirements os) probe)

/-- Options the synchronous executors pass to `execSync`: the stdio
configuration per stream and the timeout in milliseconds, when one is set. -/
structure ExecSyncOptions where
  stdio : List String
  timeout : Option Nat
deriving DecidableEq, Repr

/-- Options of `BaseBuilder.executeCommand` in `unnamed/part_003` (lines 28-64):
`stdio: ['inherit', 'pipe', 'pipe']`, `timeout: 1200000`. -/
def part003ExecOptions : ExecSyncOptions :=
  { stdio := ["inherit", "pipe", "pipe"], timeout := some 1200000 }

/-- Options of `BaseBuilder.executeCommand` in `unnamed/part_004`:
`stdio: ['inherit', 'pipe', 'inherit']`, `timeout: 120000`. -/
def part004ExecOptions : ExecSyncOptions :=
  { stdio := ["inherit", "pipe", "inherit"], timeout := some 120000 }

/-- Options of `BaseBuilder.executeCommand` in `src/src/builders/base.ts`
(lines 15-40): `stdio: 'pipe'` (all three streams piped) and no `timeout`
entry at all. -/
def baseExecOptions : ExecSyncOptions :=
  { stdio := ["pipe", "pipe", "pipe"], timeout := none }

/-- Observable outcome of the spawned command itself. -/
structure CommandOutcome where
  status : Nat
  stdout : String
  stderr : String
deriving DecidableEq, Repr

/-- Result of a synchronous execution: the captured stdout on exit code 0, or
a raised error object exposing the exit code and the captured output. -/
inductive ExecResult
  | ok (stdout : String)
  | err (status : Nat) (stdout stderr : String) (message : String)
deriving DecidableEq, Repr

/-- Model of `execSync` under piped stdio: returns stdout on exit code 0 and
otherwise throws an error object with `status`, `stdout`, `stderr` attached. -/
def execSyncModel (outcome : CommandOutcome) : ExecResult :=
  if outcome.status = 0 then .ok outcome.stdout
  else
    .err outcome.status outcome.stdout outcome.stderr
      ("Command failed with exit code " ++ toString outcome.status)

/-- Model of `BaseBuilder.executeCommand` (`unnamed/part_003` lines 28-64 and
`src/src/builders/base.ts` lines 15-40): runs `execSync` in a `try` block,
logs on failure and rethrows the same error object unchanged. -/
def executeCommand (outcome : CommandOutcome) : ExecResult :=
  match execSyncModel outcome with
  | .ok s => .ok s
  | .err st o e m => .err st o e m

/-! ## Helper lemmas -/

/-- Number of `/` characters in a string; used to separate the competing
artifact-path layouts. -/
def countSlash (s : String) : Nat :=
  s.data.count '/'

theorem countSlash_append (a b : String) :
    countSlash (a ++ b) = countSlash a + countSlash b := by
  simp [countSlash, String.data_append, List.count_append]

theorem countSlash_eq_zero_of_no_slash {v : String}
    (hv : ∀ c ∈ v.data, c ≠ '/') : countSlash v = 0 := by
  simp only [countSlash, List.count_eq_zero]
  intro h
  exact hv _ h rfl

/-- The Binary Manager's `build/<version>-<name>/<file>` path never coincides
with the `build/<name>/bin/<file>` layout when the version, platform name and
file name are slash-free: the two paths contain a different number of path
separators. -/
theorem managerPath_ne_layout (v n b : String)
    (hv : countSlash v = 0) (hn : countSlash n = 0) (hb : countSlash b = 0) :
    pathJoin ["build", v ++ "-" ++ n, b] ≠ "build/" ++ n ++ "/bin/" ++ b := by
  intro h
  have hc := congrArg countSlash h
  have l1 : countSlash "build" = 0 := by decide
  have l2 : countSlash "/" = 1 := by decide
  have l3 : countSlash "-" = 0 := by decide
  have l4 : countSlash "build/" = 1 := by decide
  have l5 : countSlash "/bin/" = 2 := by decide
  simp only [pathJoin, countSlash_append, l1, l2, l3, l4, l5, hv, hn, hb] at hc
  omega

theorem collectMissing_mem (tools : List String)
    (probe : String → Except String Unit) (t : String) :
    t ∈ collectMissing tools probe ↔ t ∈ tools ∧ stepOk (probe t) = false := by
  induction tools with
  | nil => simp [collectMissing]
  | cons x xs ih =>
    simp only [collectMissing]
    cases hx : probe x with
    | ok _ =>
      simp only [ih, List.mem_cons]
      constructor
      · rintro ⟨hm, hp⟩
        exact ⟨Or.inr hm, hp⟩
      · rintro ⟨hm | hm, hp⟩
        · subst hm
          simp [stepOk, hx] at hp
        · exact ⟨hm, hp⟩
    | error e =>
      simp only [List.mem_cons, ih]
      constructor
      · rintro (rfl | ⟨hm, hp⟩)
        · exact ⟨Or.inl rfl, by simp [stepOk, hx]⟩
        · exact ⟨Or.inr hm, hp⟩
      · rintro ⟨hm | hm, hp⟩
        · subst hm
          exact Or.inl rfl
        · exact Or.inr ⟨hm, hp⟩

/-! ## Claim theorems -/

/-- C3 (confirmed): over every host combination outside the supported set —
unsupported OS with any architecture, or supported OS with unsupported
architecture — `detectPlatform` fails with the matching
`Unsupported platform` / `Unsupported architecture` error; `Platform.current`
fails with the `Unsupported architecture` error for any unsupported
`process.arch`, and for an unsupported host OS it returns only an `Unknown`
platform object whose `getOS` and `getBinaryName` both throw — never a usable
Platform value. -/
theorem current_unsupported_host_never_usable (plat arch : String) :
    ((plat ≠ "linux" ∧ plat ≠ "win32" ∧ plat ≠ "darwin") →
      detectPlatform plat arch = .error ("Unsupported platform: " ++ plat))
    ∧ ((plat = "linux" ∨ plat = "win32" ∨ plat = "darwin") →
        arch ≠ "x64" → arch ≠ "arm64" →
        detectPlatform plat arch
          = .error ("Unsupported architecture: " ++ arch))
    ∧ (arch ≠ "x64" → arch ≠ "arm64" →
        PlatformC.current plat arch
          = .error ("Unsupported architecture: " ++ arch))
    ∧ ((plat ≠ "linux" ∧ plat ≠ "win32" ∧ plat ≠ "darwin") →
        ∀ p, PlatformC.current plat arch = .ok p →
          p.getOS = .error "Unknown OS"
          ∧ p.getBinaryName = .error "Unknown binary name") := by
  refine ⟨?_, ?_, ?_, ?_⟩
  · rintro ⟨h1, h2, h3⟩
    simp [detectPlatform, h1, h2, h3]
  · rintro (rfl | rfl | rfl) ha1 ha2 <;>
      simp [detectPlatform, detectPlatform.detectArch, ha1, ha2]
  · intro ha1 ha2
    unfold PlatformC.current PlatformC.processArchToArchitecture
    simp [ha1, ha2]
  · rintro ⟨h1, h2, h3⟩ p hp
    unfold PlatformC.current at hp
    cases ha : PlatformC.processArchToArchitecture arch with
    | error e => rw [ha] at hp; exact absurd hp (by simp)
    | ok a =>
      rw [ha] at hp
      simp only [h1, h2, h3, if_false, if_neg, Except.ok.injEq] at hp
      subst hp
      exact ⟨rfl, rfl⟩

/-- Witness for C3 at the concrete hosts `freebsd`/`x64` (unsupported OS,
supported arch), `linux`/`mips` (supported OS, unsupported arch) and
`freebsd`/`mips` (both unsupported). -/
theorem current_unsupported_host_never_usable_witness :
    detectPlatform "freebsd" "x64" = .error "Unsupported platform: freebsd"
    ∧ detectPlatform "linux" "mips" = .error "Unsupported architecture: mips"
    ∧ PlatformC.current "freebsd" "mips"
      = .error "Unsupported architecture: mips"
    ∧ PlatformC.getOS (.unknown .x86_64) = .error "Unknown OS"
    ∧ PlatformC.getBinaryName (.unknown .x86_64) = .error "Unknown binary name" := by
  have h1 := current_unsupported_host_never_usable "freebsd" "x64"
  have h2 := current_unsupported_host_never_usable "linux" "mips"
  have h3 := current_unsupported_host_never_usable "freebsd" "mips"
  have hu := h1.2.2.2 ⟨by decide, by decide, by decide⟩ (.unknown .x86_64) rfl
  exact ⟨h1.1 ⟨by decide, by decide, by decide⟩,
    h2.2.1 (Or.inl rfl) (by decide) (by decide),
    h3.2.2.1 (by decide) (by decide), hu.1, hu.2⟩

/-- C10 (corrected, amended form): with no version argument — or with the
falsy empty-string version, which JS `||` treats the same way — `ensureBinary`
resolves the version through the release feed before consulting the disk, so
an unreachable feed fails the call even when a binary is present at every
path; with a nonempty explicit version the result does not depend on the feed
at all. -/
theorem ensureBinary_version_resolution (p : PlatformC)
    (fileIsPresent : String → Bool) :
    (∀ e, BinaryManager.ensureBinary p none (.error e) fileIsPresent = .error e)
    ∧ (∀ e, BinaryManager.ensureBinary p (some "") (.error e) fileIsPresent
        = .error e)
    ∧ (∀ feed, BinaryManager.ensureBinary p (some "") feed fileIsPresent
        = BinaryManager.ensureBinary p none feed fileIsPresent)
    ∧ (∀ v feed feed', v ≠ "" →
        BinaryManager.ensureBinary p (some v) feed fileIsPresent
          = BinaryManager.ensureBinary p (some v) feed' fileIsPresent) := by
  refine ⟨fun e => rfl, fun e => rfl, fun feed => rfl, ?_⟩
  intro v feed feed' hv
  simp [BinaryManager.ensureBinary, hv]

/-- Witness for C10: an unreachable feed fails the no-argument call even with
a binary present everywhere, and the nonempty explicit version `7.66.1`
resolves identically under an unreachable and a reachable feed. -/
theorem ensureBinary_version_resolution_witness :
    BinaryManager.ensureBinary (.linux .x86_64) none
        (.error "Failed to fetch latest version: Service Unavailable")
        (fun _ => true)
      = .error "Failed to fetch latest version: Service Unavailable"
    ∧ BinaryManager.ensureBinary (.linux .x86_64) (some "7.66.1")
        (.error "Failed to fetch latest version: Service Unavailable")
        (fun _ => true)
      = BinaryManager.ensureBinary (.linux .x86_64) (some "7.66.1")
          (.ok "9.9.9") (fun _ => true) := by
  have h := ensureBinary_version_resolution (.linux .x86_64) (fun _ => true)
  exact ⟨h.1 "Failed to fetch latest version: Service Unavailable",
    h.2.2.2 "7.66.1" _ _ (by decide)⟩

/-- Counterexample for C10 as stated: at the explicit (but falsy) version
`""`, `version || getLatestVersion()` still queries the feed — the call fails
on an unreachable feed even with a binary present everywhere, and a reachable
feed resolves the feed version's path — so resolution is not purely local for
every explicit version. -/
theorem ensureBinary_empty_version_queries_feed :
    BinaryManager.ensureBinary (.linux .x86_64) (some "")
        (.error "Failed to fetch latest version: Service Unavailable")
        (fun _ => true)
      = .error "Failed to fetch latest version: Service Unavailable"
    ∧ BinaryManager.ensureBinary (.linux .x86_64) (some "") (.ok "7.66.1")
        (fun _ => true)
      = .ok "build/7.66.1-linux-x86_64/datadog-agent" := by
  exact ⟨rfl, rfl⟩

/-- C9 (confirmed): `checkBuildDependencies` always returns normally — the
result is `.ok` for every platform OS tag and every probe outcome — and the
collected warning list holds exactly the required tools whose presence probe
failed. -/
theorem checkBuildDependencies_never_throws (os : String)
    (probe : String → Except String Unit) :
    checkBuildDependencies os probe
      = .ok (collectMissing (requirements os) probe)
    ∧ ∀ t, t ∈ collectMissing (requirements os) probe
        ↔ t ∈ requirements os ∧ stepOk (probe t) = false := by
  exact ⟨rfl, fun t => collectMissing_mem (requirements os) probe t⟩

/-- C2 (corrected, amended form): for every supported platform the build CLI's
output path and the packaging script's input path agree on the
`build/<os>-<arch>/bin/<binary-name>` layout, but the Binary Manager's expected
path `build/<version>-<os>-<arch>/<binary-name>` never resolves to that layout
for any slash-free version string. -/
theorem artifact_layout_agreement (p : PlatformC) (hp : p ∈ SUPPORTED_PLATFORMS) :
    cliBinaryPath "build" p = specLayoutPath p
    ∧ packagingBinaryPath p = specLayoutPath p
    ∧ ∀ v : String, (∀ c ∈ v.data, c ≠ '/') →
        BinaryManager.getBinaryPath p v ≠ specLayoutPath p := by
  fin_cases hp <;>
    refine ⟨by rfl, by rfl, ?_⟩ <;>
    · intro v hv h
      have hv0 := countSlash_eq_zero_of_no_slash hv
      simp only [BinaryManager.getBinaryPath, specLayoutPath, PlatformC.getBinaryName,
        PlatformC.getName, PlatformC.getOS, PlatformC.getArch, Architecture.toName,
        Except.ok.injEq] at h
      exact managerPath_ne_layout v _ _ hv0 (by decide) (by decide) h

/-- Witness for C2 at `linux-x86_64` and version `7.66.1`. -/
theorem artifact_layout_agreement_witness :
    cliBinaryPath "build" (.linux .x86_64) = specLayoutPath (.linux .x86_64)
    ∧ packagingBinaryPath (.linux .x86_64) = specLayoutPath (.linux .x86_64)
    ∧ BinaryManager.getBinaryPath (.linux .x86_64) "7.66.1"
        ≠ specLayoutPath (.linux .x86_64) := by
  have h := artifact_layout_agreement (.linux .x86_64) (by simp [SUPPORTED_PLATFORMS])
  exact ⟨h.1, h.2.1, h.2.2 "7.66.1" (by decide)⟩

/-- Counterexample for C2 as stated: at `linux-x86_64` with version `7.66.1`
the Binary Manager's expected on-disk path is
`build/7.66.1-linux-x86_64/datadog-agent`, which is not the shared
`build/linux-x86_64/bin/datadog-agent` location. -/
theorem binaryManager_path_differs_from_layout :
    BinaryManager.getBinaryPath (.linux .x86_64) "7.66.1"
      = .ok "build/7.66.1-linux-x86_64/datadog-agent"
    ∧ specLayoutPath (.linux .x86_64) = .ok "build/linux-x86_64/bin/datadog-agent"
    ∧ BinaryManager.getBinaryPath (.linux .x86_64) "7.66.1"
        ≠ specLayoutPath (.linux .x86_64) := by
  refine ⟨by rfl, by rfl, ?_⟩
  intro h
  rw [show BinaryManager.getBinaryPath (.linux .x86_64) "7.66.1"
      = .ok "build/7.66.1-linux-x86_64/datadog-agent" from by rfl,
    show specLayoutPath (.linux .x86_64)
      = .ok "build/linux-x86_64/bin/datadog-agent" from by rfl] at h
  simp at h

/-- C7 (corrected, amended form): for a truthy (nonempty) explicit version —
the empty string is falsy under JS `||` and falls back to the feed — when no
file is present at the expected on-disk path, `ensureBinary` fails with the
`Binary not found for <platform name>` error — referencing the platform name,
not the expected path — and the model performs no build or download step;
when the file is present, the call returns the expected path. -/
theorem ensureBinary_missing_artifact (p : PlatformC) (v path : String)
    (feed : Except String String) (fileIsPresent : String → Bool)
    (hv : v ≠ "")
    (hpath : BinaryManager.getBinaryPath p v = .ok path) :
    (fileIsPresent path = true →
      BinaryManager.ensureBinary p (some v) feed fileIsPresent = .ok path)
    ∧ (fileIsPresent path = false → ∃ n, p.getName = .ok n ∧
      BinaryManager.ensureBinary p (some v) feed fileIsPresent
        = .error ("Binary not found for " ++ n)) := by
  obtain ⟨n, hn⟩ : ∃ n, p.getName = .ok n := by
    cases p with
    | unknown a =>
      exact absurd hpath (by simp [BinaryManager.getBinaryPath, PlatformC.getBinaryName])
    | linux a => exact ⟨_, rfl⟩
    | macos a => exact ⟨_, rfl⟩
    | windows a => exact ⟨_, rfl⟩
  constructor
  · intro hpresent
    simp [BinaryManager.ensureBinary, hv, hpath, hpresent]
  · intro habsent
    refine ⟨n, hn, ?_⟩
    simp [BinaryManager.ensureBinary, hv, hpath, habsent, hn]

/-- Witness for C7 at `linux-x86_64`, version `9.9.9`, no file present. -/
theorem ensureBinary_missing_artifact_witness :
    BinaryManager.ensureBinary (.linux .x86_64) (some "9.9.9")
        (.error "feed unreachable") (fun _ => false)
      = .error "Binary not found for linux-x86_64" := by
  have h := ensureBinary_missing_artifact (.linux .x86_64) "9.9.9"
    "build/9.9.9-linux-x86_64/datadog-agent"
    (.error "feed unreachable") (fun _ => false) (by decide) (by rfl)
  obtain ⟨n, hn, he⟩ := h.2 rfl
  have hn' : n = "linux-x86_64" := by
    simpa [PlatformC.getName, PlatformC.getOS, PlatformC.getArch,
      Architecture.toName] using hn.symm
  rw [hn'] at he
  exact he

/-- Counterexample for C7 as stated: the raised error names the platform,
`Binary not found for linux-x86_64`; the expected path
`build/9.9.9-linux-x86_64/datadog-agent` does not occur in that message
(the message is even shorter than the path). -/
theorem ensureBinary_error_no_path_reference :
    BinaryManager.ensureBinary (.linux .x86_64) (some "9.9.9")
        (.error "feed unreachable") (fun _ => false)
      = .error "Binary not found for linux-x86_64"
    ∧ BinaryManager.getBinaryPath (.linux .x86_64) "9.9.9"
      = .ok "build/9.9.9-linux-x86_64/datadog-agent"
    ∧ ¬ List.IsInfix "build/9.9.9-linux-x86_64/datadog-agent".data
        "Binary not found for linux-x86_64".data := by
  refine ⟨by rfl, by rfl, ?_⟩
  intro h
  have hle := List.IsInfix.length_le h
  revert hle
  decide

/-- C8 (corrected, amended form): the class-revision `Platform.getBinaryName`
and the struct-revision builder's `getOutputBinaryName` both carry the `.exe`
extension exactly for Windows targets, but the `unnamed/part_003` builder's
`getOutputBinaryName` returns `datadog-agent` for every target, Windows
included. -/
theorem binary_name_extension_convention (a : Architecture) (ps : PlatformS)
    (pc : PlatformC) :
    PlatformC.getBinaryName (.windows a) = .ok "datadog-agent.exe"
    ∧ PlatformC.getBinaryName (.linux a) = .ok "datadog-agent"
    ∧ PlatformC.getBinaryName (.macos a) = .ok "datadog-agent"
    ∧ base_getOutputBinaryName ps
        = (if ps.os = OSS.windows then "datadog-agent.exe" else "datadog-agent")
    ∧ part003_getOutputBinaryName pc = "datadog-agent" := by
  exact ⟨rfl, rfl, rfl, rfl, rfl⟩

/-- Counterexample for C8 as stated: for the Windows x86_64 target, the
`unnamed/part_003` builder's output binary name is `datadog-agent`, not the
`datadog-agent.exe` that `Platform.getBinaryName` reports. -/
theorem part003_windows_binary_name_mismatch :
    part003_getOutputBinaryName (.windows .x86_64) = "datadog-agent"
    ∧ part003_getOutputBinaryName (.windows .x86_64) ≠ "datadog-agent.exe"
    ∧ PlatformC.getBinaryName (.windows .x86_64) = .ok "datadog-agent.exe" := by
  refine ⟨rfl, ?_, rfl⟩
  rw [show part003_getOutputBinaryName (.windows .x86_64) = "datadog-agent" from rfl]
  decide

/-- C6 (corrected, amended form): the `unnamed/part_003` executor runs every
command with the 20-minute timeout and captures stdout and stderr; the
`src/src/builders/base.ts` executor passes no timeout at all (only piped
stdio); in both, zero exit returns the captured stdout without raising and
nonzero exit raises an error exposing the exit code and the captured
output. -/
theorem executeCommand_exit_behavior :
    part003ExecOptions.timeout = some (20 * 60 * 1000)
    ∧ part003ExecOptions.stdio = ["inherit", "pipe", "pipe"]
    ∧ baseExecOptions.timeout = none
    ∧ baseExecOptions.stdio = ["pipe", "pipe", "pipe"]
    ∧ (∀ o : CommandOutcome, o.status = 0 → executeCommand o = .ok o.stdout)
    ∧ (∀ o : CommandOutcome, o.status ≠ 0 →
        executeCommand o = .err o.status o.stdout o.stderr
          ("Command failed with exit code " ++ toString o.status)) := by
  refine ⟨rfl, rfl, rfl, rfl, ?_, ?_⟩
  · intro o h
    simp [executeCommand, execSyncModel, h]
  · intro o h
    simp [executeCommand, execSyncModel, h]

/-- Witness for C6 at two concrete command outcomes (exit 0 and exit 2). -/
theorem executeCommand_exit_behavior_witness :
    executeCommand ⟨0, "captured out", "captured err"⟩ = .ok "captured out"
    ∧ executeCommand ⟨2, "partial out", "boom"⟩
      = .err 2 "partial out" "boom" "Command failed with exit code 2" := by
  have h := executeCommand_exit_behavior
  exact ⟨h.2.2.2.2.1 ⟨0, "captured out", "captured err"⟩ rfl,
    h.2.2.2.2.2 ⟨2, "partial out", "boom"⟩ (by decide)⟩

/-- Counterexample for C6 as stated: the `src/src/builders/base.ts`
synchronous executor is invoked with no timeout option, so it does not run
under any bounded timeout, 20-minute ceiling included. -/
theorem baseExecOptions_has_no_timeout :
    baseExecOptions.timeout = none
    ∧ ¬ ∃ t : Nat, baseExecOptions.timeout = some t := by
  refine ⟨rfl, ?_⟩
  rintro ⟨t, ht⟩
  simp [baseExecOptions] at ht

/-- C4 (confirmed): `downloadSource` removes any pre-existing target directory
before acquisition, so its outcome is independent of the prior content and the
resulting directory never retains stale files; it first attempts the shallow
tag-pinned clone, falls back to the archive download (extracted with
`strip: 1`, synthesizing git init+tag metadata) only on clone failure, and
propagates the archive fetch failure when both fail. -/
theorem downloadSource_fresh_tree (prior : Option DirContent)
    (version extractTo : String) (env : DownloadEnv) :
    downloadSource prior version extractTo env
      = downloadSource none version extractTo env
    ∧ (∀ files, (downloadSource prior version extractTo env).2
        ≠ some (.stale files))
    ∧ (env.cloneResult = .ok () →
        downloadSource prior version extractTo env
          = (.ok extractTo, some (.gitClone version)))
    ∧ (∀ e, env.cloneResult = .error e → env.fetchOk = true →
        downloadSource prior version extractTo env
          = (.ok extractTo, some (.extracted version 1 env.gitMetaOk)))
    ∧ (∀ e, env.cloneResult = .error e → env.fetchOk = false →
        downloadSource prior version extractTo env
          = (.error ("Failed to download source: " ++ env.fetchStatusText),
             none)) := by
  refine ⟨rfl, ?_, ?_, ?_, ?_⟩
  · intro files
    cases hc : env.cloneResult with
    | ok u => simp [downloadSource, hc]
    | error e =>
      cases hf : env.fetchOk <;> simp [downloadSource, hc, hf]
  · intro hc
    simp [downloadSource, hc]
  · intro e hc hf
    simp [downloadSource, hc, hf]
  · intro e hc hf
    simp [downloadSource, hc, hf]

/-- Witness for C4: a target directory holding stale content is replaced by
the fresh clone when the clone succeeds, and by the stripped archive tree when
the clone fails but the fetch succeeds. -/
theorem downloadSource_fresh_tree_witness :
    downloadSource (some (.stale ["leftover.o", "old-src"])) "7.66.1" "source"
        ⟨.ok (), true, "OK", true⟩
      = (.ok "source", some (.gitClone "7.66.1"))
    ∧ downloadSource (some (.stale ["leftover.o"])) "7.66.1" "source"
        ⟨.error "git clone failed", true, "OK", true⟩
      = (.ok "source", some (.extracted "7.66.1" 1 true)) := by
  exact ⟨(downloadSource_fresh_tree _ _ _ _).2.2.1 rfl,
    (downloadSource_fresh_tree _ _ _ _).2.2.2.1 "git clone failed" rfl rfl⟩

/-- Sample oracle environment in which every external step succeeds. -/
def allOkEnv : BuilderEnv :=
  { hostPlatform := "linux", dockerAvailable := false,
    ensureOutputDir := .ok (), dockerImageBuild := .ok (), writeScript := .ok (),
    dockerRun := .ok (), pipInstall := .ok (), ddaInstallTools := .ok (),
    ddaAgentBuild := .ok (), goModDownload := .ok (), buildAgent := .ok (),
    buildProcessAgent := .ok (), buildTraceAgent := .ok (),
    buildSystemProbe := .ok (), xcodeSelect := .ok (), copyBinaries := .ok (),
    startTime := 1000, endTime := 61000 }

/-- Cross-compilation environment on a macOS host where the in-container build
script exits nonzero. -/
def dockerFailEnv : BuilderEnv :=
  { allOkEnv with
    hostPlatform := "darwin"
    dockerAvailable := true
    dockerRun := .error "Command failed with exit code 1" }

/-- Linux-target build configuration used in concrete scenarios. -/
def linuxCfg : BuildConfigS :=
  { platform := { os := OSS.linux, arch := ArchS.x64 },
    version := some "7.66.1", outputDir := "build/linux-x64/bin",
    sourceDir := "source" }

/-- C1 (confirmed): every sub-step failure inside `LinuxBuilder.build` —
output-directory creation, the `pip`/`dda` install and build commands, the
artifact copy, the Docker image build, or the in-container script — produces a
returned `BuildResult` with `success = false`, the config's platform, the
underlying error message and the elapsed duration; the function's total
`BuildOutcome` return type records that no exception escapes `build()`. -/
theorem linuxBuilder_build_catches_all_failures (cfg : BuildConfigS)
    (env : BuilderEnv) :
    (∀ e, mkFailed cfg env e
      = { success := false, platform := cfg.platform, outputPath := none,
          error := some e, duration := env.endTime - env.startTime })
    ∧ ((LinuxBuilder.build cfg env).result.platform = cfg.platform
      ∧ (LinuxBuilder.build cfg env).result.duration = env.duration)
    ∧ ((LinuxBuilder.build cfg env).result.success = false →
        ∃ e, (LinuxBuilder.build cfg env).result.error = some e)
    ∧ (∀ e, env.ensureOutputDir = .error e →
        (LinuxBuilder.build cfg env).result = mkFailed cfg env e)
    ∧ (∀ e, env.ensureOutputDir = .ok () → env.hostPlatform ≠ "linux" →
        env.dockerAvailable = true → env.dockerImageBuild = .error e →
        (LinuxBuilder.build cfg env).result = mkFailed cfg env e)
    ∧ (∀ e, env.ensureOutputDir = .ok () → env.hostPlatform ≠ "linux" →
        env.dockerAvailable = true → env.dockerImageBuild = .ok () →
        env.writeScript = .ok () → env.dockerRun = .error e →
        (LinuxBuilder.build cfg env).result = mkFailed cfg env e)
    ∧ (∀ e, env.ensureOutputDir = .ok () →
        (env.hostPlatform = "linux" ∨ env.dockerAvailable = false) →
        buildCommon env = .error e →
        (LinuxBuilder.build cfg env).result = mkFailed cfg env e)
    ∧ (∀ e, env.ensureOutputDir = .ok () →
        (env.hostPlatform = "linux" ∨ env.dockerAvailable = false) →
        buildCommon env = .ok () → env.copyBinaries = .error e →
        (LinuxBuilder.build cfg env).result = mkFailed cfg env e)
    ∧ (∀ e, env.pipInstall = .error e → buildCommon env = .error e)
    ∧ (∀ e, env.pipInstall = .ok () → env.ddaInstallTools = .error e →
        buildCommon env = .error e)
    ∧ (∀ e, env.pipInstall = .ok () → env.ddaInstallTools = .ok () →
        env.ddaAgentBuild = .error e → buildCommon env = .error e) := by
  refine ⟨fun e => rfl, ?_, ?_, ?_, ?_, ?_, ?_, ?_, ?_, ?_, ?_⟩
  · unfold LinuxBuilder.build LinuxBuilder.nativeTail buildWithDocker buildCommon
    repeat' split
    all_goals simp [mkFailed, BuilderEnv.duration]
  · unfold LinuxBuilder.build LinuxBuilder.nativeTail buildWithDocker buildCommon
    repeat' split
    all_goals simp [mkFailed]
  · intro e h
    simp [LinuxBuilder.build, h]
  · intro e h1 h2 h3 h4
    simp [LinuxBuilder.build, buildWithDocker, h1, h2, h3, h4]
  · intro e h1 h2 h3 h4 h5 h6
    simp [LinuxBuilder.build, buildWithDocker, h1, h2, h3, h4, h5, h6]
  · intro e h1 h2 h3
    rcases h2 with h2 | h2 <;>
      simp [LinuxBuilder.build, LinuxBuilder.nativeTail, h1, h2, h3]
  · intro e h1 h2 h3 h4
    rcases h2 with h2 | h2 <;>
      simp [LinuxBuilder.build, LinuxBuilder.nativeTail, h1, h2, h3, h4]
  · intro e h
    simp [buildCommon, h]
  · intro e h1 h2
    simp [buildCommon, h1, h2]
  · intro e h1 h2 h3
    simp [buildCommon, h1, h2, h3]

/-- Witness for C1: the spec's container-script-failure scenario — a Linux
target built on a macOS host where the in-container script exits nonzero —
yields a failed `BuildResult` with the error message and a duration, not an
exception. -/
theorem linuxBuilder_build_catches_all_failures_witness :
    (LinuxBuilder.build linuxCfg dockerFailEnv).result
      = { success := false, platform := linuxCfg.platform, outputPath := none,
          error := some "Command failed with exit code 1", duration := 60000 } := by
  have h := (linuxBuilder_build_catches_all_failures linuxCfg dockerFailEnv).2.2.2.2.2.1
    "Command failed with exit code 1" rfl (by decide) rfl rfl rfl rfl
  rw [h]
  rfl

/-- C5 (corrected, amended form): the Linux and Windows builders take the
containerized path exactly when the output directory step succeeded, the host
`process.platform` differs from the target's native platform tag, and Docker
is available; the Darwin builder never takes it; when the host equals the
target platform the containerized path is never taken. -/
theorem containerized_path_gate (cfg : BuildConfigS) (env : BuilderEnv) :
    ((LinuxBuilder.build cfg env).dockerAttempted
      = (stepOk env.ensureOutputDir
          && !(env.hostPlatform == "linux") && env.dockerAvailable))
    ∧ ((WindowsBuilder.build cfg env).dockerAttempted
      = (stepOk env.ensureOutputDir
          && !(env.hostPlatform == "win32") && env.dockerAvailable))
    ∧ (DarwinBuilder.build cfg env).dockerAttempted = false
    ∧ (env.hostPlatform = "linux" →
        (LinuxBuilder.build cfg env).dockerAttempted = false)
    ∧ (env.hostPlatform = "win32" →
        (WindowsBuilder.build cfg env).dockerAttempted = false) := by
  have hlinux : (LinuxBuilder.build cfg env).dockerAttempted
      = (stepOk env.ensureOutputDir
          && !(env.hostPlatform == "linux") && env.dockerAvailable) := by
    cases he : env.ensureOutputDir with
    | error e => simp [LinuxBuilder.build, he, stepOk]
    | ok u =>
      by_cases hh : env.hostPlatform = "linux"
      · simp [LinuxBuilder.build, he, hh, stepOk]
      · cases hd : env.dockerAvailable <;>
          simp [LinuxBuilder.build, he, hh, hd, stepOk]
  have hwin : (WindowsBuilder.build cfg env).dockerAttempted
      = (stepOk env.ensureOutputDir
          && !(env.hostPlatform == "win32") && env.dockerAvailable) := by
    cases he : env.ensureOutputDir with
    | error e => simp [WindowsBuilder.build, he, stepOk]
    | ok u =>
      by_cases hh : env.hostPlatform = "win32"
      · simp [WindowsBuilder.build, he, hh, stepOk]
      · cases hd : env.dockerAvailable <;>
          simp [WindowsBuilder.build, he, hh, hd, stepOk]
  refine ⟨hlinux, hwin, ?_, ?_, ?_⟩
  · cases he : env.ensureOutputDir <;> simp [DarwinBuilder.build, he]
  · intro hh
    rw [hlinux, hh]
    simp
  · intro hh
    rw [hwin, hh]
    simp

/-- Witness for C5: on a `linux` host the Linux builder stays native even with
Docker available, and on a `darwin` host with Docker available it attempts the
containerized path. -/
theorem containerized_path_gate_witness :
    (LinuxBuilder.build linuxCfg
        { allOkEnv with dockerAvailable := true }).dockerAttempted = false
    ∧ (LinuxBuilder.build linuxCfg dockerFailEnv).dockerAttempted = true := by
  constructor
  · exact (containerized_path_gate linuxCfg
      { allOkEnv with dockerAvailable := true }).2.2.2.1 rfl
  · have h := (containerized_path_gate linuxCfg dockerFailEnv).1
    rw [h]
    rfl

/-- Darwin-target build configuration used in concrete scenarios. -/
def darwinCfg : BuildConfigS :=
  { platform := { os := OSS.darwin, arch := ArchS.arm64 },
    version := some "7.66.1", outputDir := "build/darwin-arm64/bin",
    sourceDir := "source" }

/-- Oracle environment for a macOS-target build on a Linux host: Docker is
available but the native macOS toolchain (Xcode command line tools) is not. -/
def noXcodeEnv : BuilderEnv :=
  { allOkEnv with
    hostPlatform := "linux"
    dockerAvailable := true
    xcodeSelect := .error "xcode-select: error: no developer tools found" }

/-- Counterexample for C5 as stated: building the macOS target on a `linux`
host with no native toolchain available (the Xcode probe fails), the builder
never attempts the containerized path — it fails natively instead. -/
theorem darwin_cross_build_never_containerized :
    noXcodeEnv.hostPlatform = "linux"
    ∧ darwinCfg.platform.os = OSS.darwin
    ∧ noXcodeEnv.dockerAvailable = true
    ∧ noXcodeEnv.xcodeSelect
        = .error "xcode-select: error: no developer tools found"
    ∧ (DarwinBuilder.build darwinCfg noXcodeEnv).dockerAttempted = false
    ∧ (DarwinBuilder.build darwinCfg noXcodeEnv).result.success = false := by
  exact ⟨rfl, rfl, rfl, rfl, rfl, rfl⟩
